import Mathlib

/-!
A shallow embedding of the data-aggregation logic of the two screens
`src/app/ProfileScreen.tsx` and `src/app/Trending.tsx` of the
opinions-frontend repository, together with proofs about it.

Modelling conventions:
* Remote fetches are oracles passed in as arguments.  A per-post prompt
  fetch is a function `String → Option Prompt`; `none` models any failure
  (network rejection or a non-ok HTTP response), `some p` a successful
  decoded response.
* The primary post-list fetch outcome is an inductive: either a decoded
  post list or a failure (transport error or a body that fails decoding).
* React state after a pipeline run is a plain record; the render functions
  map state records to a `View` record listing exactly the UI elements the
  JSX can produce (spinner, error text, empty text, list of cards).
* JavaScript `Number(...)` on identifier strings is modelled by
  `jsNumber : String → Option Int`, with `none` playing the role of `NaN`.
* The `Promise.all` fan-out is modelled explicitly: each concurrent task
  writes its result into the slot of its originating index, and the order
  in which tasks complete is an arbitrary permutation of the indices.
-/

/-- A prompt record as returned by `GET /api/prompt/{promptId}`. -/
structure Prompt where
  PromptID : String
  PromptText : String
  Category : String
deriving DecidableEq, Repr

/-- Parameters of a dispatched `navigation.navigate('Replies', …)` call.
`none` in a field models the JavaScript `NaN` produced by `Number` on a
non-numeric string. -/
structure NavCall where
  postId : Option Int
  promptId : Option Int
deriving DecidableEq, Repr

/-- Decimal digit value of a character, if it is a digit. -/
def digitVal? (c : Char) : Option Nat :=
  if '0' ≤ c ∧ c ≤ '9' then some (c.toNat - '0'.toNat) else none

/-- Reads a non-empty all-digit character list as a natural number;
any non-digit character makes the whole read fail. -/
def digitsNat? : List Char → Nat → Option Nat
  | [], acc => some acc
  | c :: cs, acc =>
    match digitVal? c with
    | some d => digitsNat? cs (acc * 10 + d)
    | none => none

/-- Model of JavaScript `Number(s)` applied to an identifier string:
`none` models `NaN`, `some n` a numeric value.  It covers the inputs the
screens can produce (decimal integer id strings, optionally negative, the
empty string giving `0`); any string containing a non-digit character is
`NaN`. -/
def jsNumber (s : String) : Option Int :=
  match s.data with
  | [] => some 0
  | '-' :: c :: cs => (digitsNat? (c :: cs) 0).map (fun n => -(n : Int))
  | cs => (digitsNat? cs 0).map (fun n => (n : Int))

/-- One step of the `Promise.all` slot model: completions are processed in
the given order, and the completion of task `i` stores the task's result
`tasks[i]?` into slot `i`. -/
def fillSlots (tasks : List α) : List Nat → List (Option α) → List (Option α)
  | [], slots => slots
  | i :: rest, slots => fillSlots tasks rest (slots.set i tasks[i]?)

/-- `Promise.all` over `tasks`, with the tasks completing in the order given
by `order` (a permutation of the indices): every slot starts unresolved and
task `i` resolves slot `i` when it completes. -/
def promiseAll (tasks : List α) (order : List Nat) : List (Option α) :=
  fillSlots tasks order (List.replicate tasks.length none)

namespace Profile

/-- The `Post` interface of `ProfileScreen.tsx`; `PromptText` and
`Category` are optional there (added by enrichment). -/
structure Post where
  PostID : String
  PromptID : String
  PostText : String
  UpvoteCount : Nat
  DownvoteCount : Nat
  PromptText : Option String := none
  Category : Option String := none
deriving DecidableEq, Repr

/-- The `UserData` interface of `ProfileScreen.tsx`. -/
structure UserData where
  UserID : String
  Username : String
deriving DecidableEq, Repr

/-- Per-post body of the `Promise.all` fan-out in `fetchPosts`
(ProfileScreen.tsx lines 104-122): on a successful prompt fetch the post is
merged with the prompt's `PromptText` and `Category`; on any failure both
fields are set to the empty string. -/
def enrichPost (fetchPrompt : String → Option Prompt) (post : Post) : Post :=
  match fetchPrompt post.PromptID with
  | some prompt =>
      { post with PromptText := some prompt.PromptText, Category := some prompt.Category }
  | none =>
      { post with PromptText := some "", Category := some "" }

/-- The whole enrichment fan-out, as the value `Promise.all` resolves to. -/
def enrichAll (fetchPrompt : String → Option Prompt) (posts : List Post) : List Post :=
  posts.map (enrichPost fetchPrompt)

/-- The `totalVotes` accumulator of `fetchPosts`: each map callback adds
`post.UpvoteCount + post.DownvoteCount` synchronously (before its first
`await`), so the accumulation runs over the posts in list order exactly
once, independent of prompt-fetch completion order. -/
def totalVotes (posts : List Post) : Nat :=
  posts.foldl (fun acc post => acc + (post.UpvoteCount + post.DownvoteCount)) 0

/-- Outcome of the primary `GET /api/user/{userId}/posts` fetch: `failure`
models a transport error or a body on which `data.posts.map` throws;
`success` carries the decoded post list. -/
inductive PostsResponse where
  | failure
  | success (posts : List Post)
deriving DecidableEq

/-- The screen state that `fetchPosts` writes: posts, error, loading flag,
controversy score, plus an instrumentation count of HTTP requests issued. -/
structure PostsState where
  posts : List Post
  error : Option String
  isLoading : Bool
  controversyScore : Nat
  requestsMade : Nat
deriving DecidableEq, Repr

/-- State at mount time, before `fetchPosts` runs. -/
def initialPostsState : PostsState :=
  { posts := [], error := none, isLoading := true, controversyScore := 0, requestsMade := 0 }

/-- `fetchPosts` of ProfileScreen.tsx (lines 88-132) as a state
transformer from the mount state: a `none` user id short-circuits to an
error with no request issued; a failed list fetch is caught and surfaced
as the error string; a successful fetch stores the enriched posts and the
vote total. -/
def fetchPosts (userId : Option String) (resp : PostsResponse)
    (fetchPrompt : String → Option Prompt) : PostsState :=
  match userId with
  | none =>
      { initialPostsState with error := some "User ID is not available", isLoading := false }
  | some _ =>
      match resp with
      | .failure =>
          { initialPostsState with
              error := some "Failed to load posts", isLoading := false, requestsMade := 1 }
      | .success data =>
          { posts := enrichAll fetchPrompt data,
            error := none,
            isLoading := false,
            controversyScore := totalVotes data,
            requestsMade := 1 + data.length }

/-- Outcome of `GET /api/user/{userId}`: a transport/decoding failure, a
non-ok response (which the code turns into a thrown error), or decoded
user data. -/
inductive UserResponse where
  | failure
  | notOk
  | success (user : UserData)
deriving DecidableEq

/-- The state that `fetchUserData` writes. -/
structure UserState where
  username : String
  error : Option String
  userLoading : Bool
  requestsMade : Nat
deriving DecidableEq, Repr

/-- `fetchUserData` of ProfileScreen.tsx (lines 64-86) as a state
transformer from the mount state (`username` starts as the empty string). -/
def fetchUserData (userId : Option String) (resp : UserResponse) : UserState :=
  match userId with
  | none =>
      { username := "", error := some "User ID is not available",
        userLoading := false, requestsMade := 0 }
  | some _ =>
      match resp with
      | .success user =>
          { username := user.Username, error := none, userLoading := false, requestsMade := 1 }
      | .failure =>
          { username := "", error := some "Failed to load user data",
            userLoading := false, requestsMade := 1 }
      | .notOk =>
          { username := "", error := some "Failed to load user data",
            userLoading := false, requestsMade := 1 }

/-- The UI elements a screen render can show. -/
structure View where
  showsSpinner : Bool
  errorMessage : Option String
  emptyMessage : Option String
  cards : List Post
deriving DecidableEq, Repr

/-- `renderPosts` of ProfileScreen.tsx (lines 145-174): a spinner while
loading, the error text if an error is set, the distinct "No posts yet"
text for an empty list, otherwise one card per post. -/
def renderPosts (s : PostsState) : View :=
  if s.isLoading then
    { showsSpinner := true, errorMessage := none, emptyMessage := none, cards := [] }
  else
    match s.error with
    | some e =>
        { showsSpinner := false, errorMessage := some e, emptyMessage := none, cards := [] }
    | none =>
        if s.posts.isEmpty then
          { showsSpinner := false, errorMessage := none,
            emptyMessage := some "No posts yet", cards := [] }
        else
          { showsSpinner := false, errorMessage := none, emptyMessage := none, cards := s.posts }

/-- `navigateToReplies` of ProfileScreen.tsx (lines 138-143): it converts
both ids with `Number` and dispatches the navigation unconditionally —
there is no `isNaN` check and no early return, so a non-numeric id is
passed through as `NaN` (modelled `none`). -/
def navigateToReplies (postId : String) (promptId : String) : Option NavCall :=
  some { postId := jsNumber postId, promptId := jsNumber promptId }

end Profile

namespace Trending

/-- The `Post` interface of `Trending.tsx`: here `Category` is a required
field of the fetched post itself. -/
structure Post where
  PostID : String
  PromptID : String
  PostText : String
  UpvoteCount : Nat
  DownvoteCount : Nat
  Category : String
deriving DecidableEq, Repr

/-- A post after the enrichment fan-out: the spread adds a `PromptText`
field and overwrites `Category`. -/
structure EnrichedPost where
  PostID : String
  PromptID : String
  PostText : String
  UpvoteCount : Nat
  DownvoteCount : Nat
  Category : String
  PromptText : String
deriving DecidableEq, Repr

/-- Per-post body of the `Promise.all` fan-out in `fetchPosts`
(Trending.tsx lines 105-121): on success the prompt's `PromptText` and
`Category` are merged onto the post (overwriting the post's own
`Category`); on any failure both become the empty string. -/
def enrichPost (fetchPrompt : String → Option Prompt) (post : Post) : EnrichedPost :=
  match fetchPrompt post.PromptID with
  | some prompt =>
      { PostID := post.PostID, PromptID := post.PromptID, PostText := post.PostText,
        UpvoteCount := post.UpvoteCount, DownvoteCount := post.DownvoteCount,
        Category := prompt.Category, PromptText := prompt.PromptText }
  | none =>
      { PostID := post.PostID, PromptID := post.PromptID, PostText := post.PostText,
        UpvoteCount := post.UpvoteCount, DownvoteCount := post.DownvoteCount,
        Category := "", PromptText := "" }

/-- The whole enrichment fan-out, as the value `Promise.all` resolves to. -/
def enrichAll (fetchPrompt : String → Option Prompt) (posts : List Post) : List EnrichedPost :=
  posts.map (enrichPost fetchPrompt)

/-- The comparator `(a, b) => b.UpvoteCount - a.UpvoteCount` of
Trending.tsx line 98-99, as the boolean "a may precede b" relation of a
stable sort (JavaScript `Array.prototype.sort` is stable). -/
def voteLe (a b : Post) : Bool :=
  decide (b.UpvoteCount ≤ a.UpvoteCount)

/-- `data.sort(...)` of Trending.tsx: stable sort descending by
`UpvoteCount`. -/
def sortDesc (posts : List Post) : List Post :=
  posts.mergeSort voteLe

/-- Outcome of the primary `GET /api/posts` fetch. -/
inductive PostsResponse where
  | failure
  | success (posts : List Post)
deriving DecidableEq

/-- The screen state that `fetchPosts` writes.  `loggedError` records
whether the catch block ran `console.error` (the only thing it does
besides clearing the loading flag — there is no error state on this
screen). -/
structure TState where
  posts : List EnrichedPost
  loading : Bool
  loggedError : Bool
deriving DecidableEq, Repr

/-- `fetchPosts` of Trending.tsx (lines 90-132) as a state transformer
from the mount state: on success the fetched list is sorted descending by
`UpvoteCount`, truncated to the first 20 entries, and only then enriched;
on failure the catch block merely logs and clears the loading flag,
leaving the post list empty. -/
def fetchPosts (resp : PostsResponse) (fetchPrompt : String → Option Prompt) : TState :=
  match resp with
  | .failure =>
      { posts := [], loading := false, loggedError := true }
  | .success data =>
      { posts := enrichAll fetchPrompt ((sortDesc data).take 20),
        loading := false, loggedError := false }

/-- `handleCategoryPress` of Trending.tsx (lines 53-55): pressing the
currently selected category resets the selection to `"all"`, pressing any
other category selects it. -/
def handleCategoryPress (prevCategory : String) (categoryId : String) : String :=
  if prevCategory = categoryId then "all" else categoryId

/-- The UI elements the Trending render can show. -/
structure View where
  showsSpinner : Bool
  errorMessage : Option String
  emptyMessage : Option String
  cards : List EnrichedPost
deriving DecidableEq, Repr

/-- The render of Trending.tsx (lines 134-206): a bare spinner while
loading, otherwise the category bar plus `posts.map(...)` — every post in
state is rendered as a card.  The JSX contains no error text, no
empty-list text, and no filtering of `posts` by `selectedCategory` (the
selection only changes button styling), which is why those fields are
constant here. -/
def renderView (s : TState) (selectedCategory : String) : View :=
  if s.loading then
    { showsSpinner := true, errorMessage := none, emptyMessage := none, cards := [] }
  else
    { showsSpinner := false, errorMessage := none, emptyMessage := none, cards := s.posts }

/-- `handlePostPress` of Trending.tsx (lines 59-76): both ids are
converted with `Number`; if either is `NaN` the failure is logged and the
function returns without dispatching a navigation call. -/
def handlePostPress (postId : String) (promptId : String) : Option NavCall :=
  match jsNumber postId, jsNumber promptId with
  | some p, some q => some { postId := some p, promptId := some q }
  | _, _ => none

end Trending

/-! ### Concrete sample data used to instantiate the theorems -/

/-- A sample prompt record. -/
def samplePrompt : Prompt :=
  { PromptID := "7", PromptText := "Best team?", Category := "sports" }

/-- A sample prompt-fetch oracle: prompt "7" resolves, every other id
fails. -/
def sampleFetch : String → Option Prompt :=
  fun promptId => if promptId = "7" then some samplePrompt else none

/-- Sample profile posts (vote counts from the spec's worked example). -/
def pSample1 : Profile.Post :=
  { PostID := "1", PromptID := "7", PostText := "a", UpvoteCount := 5, DownvoteCount := 1 }

/-- A second sample profile post, whose prompt fetch fails under
`sampleFetch`. -/
def pSample2 : Profile.Post :=
  { PostID := "2", PromptID := "9", PostText := "b", UpvoteCount := 2, DownvoteCount := 0 }

/-- A sample trending post with its own `Category` value. -/
def tSample1 : Trending.Post :=
  { PostID := "1", PromptID := "7", PostText := "a", UpvoteCount := 5, DownvoteCount := 1,
    Category := "music" }

/-- A second sample trending post, whose prompt fetch fails under
`sampleFetch`. -/
def tSample2 : Trending.Post :=
  { PostID := "2", PromptID := "9", PostText := "b", UpvoteCount := 2, DownvoteCount := 0,
    Category := "music" }

/-- Twenty-one distinct trending posts, for the truncation claim. -/
def tBig : List Trending.Post :=
  (List.range 21).map fun i =>
    { PostID := toString i, PromptID := "7", PostText := "p", UpvoteCount := i,
      DownvoteCount := 0, Category := "music" }

/-! ### Helper lemmas about the `Promise.all` slot model -/

theorem length_fillSlots (tasks : List α) (order : List Nat) (slots : List (Option α)) :
    (fillSlots tasks order slots).length = slots.length := by
  induction order generalizing slots with
  | nil => rfl
  | cons i rest ih => simp [fillSlots, ih]

theorem fillSlots_getElem?_of_not_mem (tasks : List α) {order : List Nat} {j : Nat}
    (hj : j ∉ order) (slots : List (Option α)) :
    (fillSlots tasks order slots)[j]? = slots[j]? := by
  induction order generalizing slots with
  | nil => rfl
  | cons i rest ih =>
    rw [fillSlots, ih (fun h => hj (List.mem_cons_of_mem _ h))]
    exact List.getElem?_set_ne (fun h => hj (by rw [← h]; exact List.mem_cons_self _ _))

theorem fillSlots_getElem?_of_mem (tasks : List α) {order : List Nat} {j : Nat}
    (hj : j ∈ order) (slots : List (Option α)) (hlen : j < slots.length) :
    (fillSlots tasks order slots)[j]? = some tasks[j]? := by
  induction order generalizing slots with
  | nil => exact absurd hj (List.not_mem_nil _)
  | cons i rest ih =>
    rw [fillSlots]
    by_cases hr : j ∈ rest
    · exact ih hr _ (by simpa using hlen)
    · have hij : j = i := by
        rcases List.mem_cons.mp hj with h | h
        · exact h
        · exact absurd h hr
      subst hij
      rw [fillSlots_getElem?_of_not_mem tasks hr]
      exact List.getElem?_set_eq_of_lt _ hlen

/-- For any completion order that is a permutation of the task indices,
the `Promise.all` slot model resolves to exactly the task results, in task
index order. -/
theorem promiseAll_eq_map_some (tasks : List α) (order : List Nat)
    (horder : order.Perm (List.range tasks.length)) :
    promiseAll tasks order = tasks.map some := by
  apply List.ext_getElem?
  intro j
  by_cases hj : j < tasks.length
  · have hmem : j ∈ order := horder.mem_iff.mpr (List.mem_range.mpr hj)
    rw [promiseAll, fillSlots_getElem?_of_mem tasks hmem _ (by simpa using hj),
      List.getElem?_map, List.getElem?_eq_getElem hj]
    rfl
  · have hmem : j ∉ order := fun h =>
      hj (List.mem_range.mp (horder.mem_iff.mp h))
    rw [promiseAll, fillSlots_getElem?_of_not_mem tasks hmem,
      List.getElem?_eq_none (by simp; omega), List.getElem?_eq_none (by simp; omega)]

/-! ### Helper lemmas about enrichment, the vote total and the sort -/

theorem Profile.totalVotes_foldl (l : List Profile.Post) (a : Nat) :
    l.foldl (fun acc post => acc + (post.UpvoteCount + post.DownvoteCount)) a
      = a + (l.map (fun post => post.UpvoteCount + post.DownvoteCount)).sum := by
  induction l generalizing a with
  | nil => simp
  | cons p l ih => simp [List.foldl_cons, ih, Nat.add_assoc]

theorem Profile.totalVotes_eq_sum (l : List Profile.Post) :
    Profile.totalVotes l = (l.map (fun post => post.UpvoteCount + post.DownvoteCount)).sum := by
  simpa using Profile.totalVotes_foldl l 0

theorem Trending.enrichPost_upvotes (f : String → Option Prompt) (p : Trending.Post) :
    (Trending.enrichPost f p).UpvoteCount = p.UpvoteCount := by
  cases h : f p.PromptID <;> simp [Trending.enrichPost, h]

theorem Trending.sortDesc_perm (l : List Trending.Post) : (Trending.sortDesc l).Perm l :=
  List.mergeSort_perm l _

theorem Trending.voteLe_trans (a b c : Trending.Post) :
    Trending.voteLe a b → Trending.voteLe b c → Trending.voteLe a c := by
  simp only [Trending.voteLe, decide_eq_true_eq]
  omega

theorem Trending.voteLe_total (a b : Trending.Post) :
    Trending.voteLe a b || Trending.voteLe b a := by
  simp only [Trending.voteLe, Bool.or_eq_true, decide_eq_true_eq]
  omega

theorem Trending.sortDesc_pairwise (l : List Trending.Post) :
    List.Pairwise (fun a b => b.UpvoteCount ≤ a.UpvoteCount) (Trending.sortDesc l) := by
  have h := List.sorted_mergeSort Trending.voteLe_trans Trending.voteLe_total l
  exact h.imp fun hab => by simpa [Trending.voteLe] using hab

/-! ### The claims -/

/-- Claim C1: for every input post list, the `Promise.all` prompt-enrichment
fan-out on either screen produces an output list of the same length as the
input, whose i-th element is the enrichment of the i-th input post, for
every completion order of the concurrent prompt fetches (modelled as an
arbitrary permutation of the task indices). -/
theorem c1_enrichment_preserves_length_and_order
    (pposts : List Profile.Post) (tposts : List Trending.Post)
    (pf tf : String → Option Prompt) (porder torder : List Nat)
    (hp : porder.Perm (List.range pposts.length))
    (ht : torder.Perm (List.range tposts.length)) :
    (promiseAll (pposts.map (Profile.enrichPost pf)) porder).length = pposts.length ∧
    promiseAll (pposts.map (Profile.enrichPost pf)) porder
      = pposts.map (fun p => some (Profile.enrichPost pf p)) ∧
    (promiseAll (tposts.map (Trending.enrichPost tf)) torder).length = tposts.length ∧
    promiseAll (tposts.map (Trending.enrichPost tf)) torder
      = tposts.map (fun p => some (Trending.enrichPost tf p)) := by
  have hp1 := promiseAll_eq_map_some (pposts.map (Profile.enrichPost pf)) porder
    (by simpa using hp)
  have ht1 := promiseAll_eq_map_some (tposts.map (Trending.enrichPost tf)) torder
    (by simpa using ht)
  refine ⟨?_, ?_, ?_, ?_⟩
  · rw [hp1]; simp
  · rw [hp1, List.map_map]; rfl
  · rw [ht1]; simp
  · rw [ht1, List.map_map]; rfl

/-- Witness for C1 at concrete two-post lists with completion order
reversed relative to the input order. -/
theorem c1_witness :
    List.Perm [1, 0] (List.range [pSample1, pSample2].length) ∧
    List.Perm [1, 0] (List.range [tSample1, tSample2].length) ∧
    promiseAll ([pSample1, pSample2].map (Profile.enrichPost sampleFetch)) [1, 0]
      = [pSample1, pSample2].map (fun p => some (Profile.enrichPost sampleFetch p)) ∧
    promiseAll ([tSample1, tSample2].map (Trending.enrichPost sampleFetch)) [1, 0]
      = [tSample1, tSample2].map (fun p => some (Trending.enrichPost sampleFetch p)) := by
  have h := c1_enrichment_preserves_length_and_order
    [pSample1, pSample2] [tSample1, tSample2] sampleFetch sampleFetch
    [1, 0] [1, 0] (by decide) (by decide)
  exact ⟨by decide, by decide, h.2.1, h.2.2.2⟩

/-- Claim C2: a post whose prompt fetch fails is still present in the
enrichment output at its own index, with `PromptText` and `Category` both
set to the empty string, and the batch keeps its full length (no rejection,
no dropped post), on both screens. -/
theorem c2_failed_prompt_fallback
    (pposts : List Profile.Post) (pf : String → Option Prompt)
    (i : Nat) (hpi : i < pposts.length) (hpf : pf pposts[i].PromptID = none)
    (tposts : List Trending.Post) (tf : String → Option Prompt)
    (j : Nat) (htj : j < tposts.length) (htf : tf tposts[j].PromptID = none) :
    (Profile.enrichAll pf pposts).length = pposts.length ∧
    (Profile.enrichAll pf pposts)[i]?
      = some { pposts[i] with PromptText := some "", Category := some "" } ∧
    (Trending.enrichAll tf tposts).length = tposts.length ∧
    (Trending.enrichAll tf tposts)[j]?
      = some { PostID := tposts[j].PostID, PromptID := tposts[j].PromptID,
               PostText := tposts[j].PostText, UpvoteCount := tposts[j].UpvoteCount,
               DownvoteCount := tposts[j].DownvoteCount,
               Category := "", PromptText := "" } := by
  refine ⟨by simp [Profile.enrichAll], ?_, by simp [Trending.enrichAll], ?_⟩
  · rw [Profile.enrichAll, List.getElem?_map, List.getElem?_eq_getElem hpi]
    simp [Profile.enrichPost, hpf]
  · rw [Trending.enrichAll, List.getElem?_map, List.getElem?_eq_getElem htj]
    simp [Trending.enrichPost, htf]

/-- Witness for C2: under `sampleFetch` the prompt of `pSample2`/`tSample2`
(id "9") fails, yet the post survives with empty-string fields. -/
theorem c2_witness :
    (0 : Nat) < [pSample2].length ∧ sampleFetch pSample2.PromptID = none ∧
    (0 : Nat) < [tSample2].length ∧ sampleFetch tSample2.PromptID = none ∧
    (Profile.enrichAll sampleFetch [pSample2]).length = 1 ∧
    (Profile.enrichAll sampleFetch [pSample2])[0]?
      = some { pSample2 with PromptText := some "", Category := some "" } := by
  have h := c2_failed_prompt_fallback [pSample2] sampleFetch 0 (by decide) (by decide)
    [tSample2] sampleFetch 0 (by decide) (by decide)
  exact ⟨by decide, by decide, by decide, by decide, h.1, h.2.1⟩

/-- Claim C3: the controversy score set by the profile screen equals the
exact sum of `UpvoteCount + DownvoteCount` over all fetched user posts
(each counted exactly once as a summand of the mapped list), and it does
not depend on the prompt-fetch oracle, i.e. on whether any individual
enrichment fetch succeeds or fails. -/
theorem c3_controversy_score_is_vote_sum
    (uid : String) (data : List Profile.Post) (pf qf : String → Option Prompt) :
    (Profile.fetchPosts (some uid) (Profile.PostsResponse.success data) pf).controversyScore
      = (data.map (fun post => post.UpvoteCount + post.DownvoteCount)).sum ∧
    (Profile.fetchPosts (some uid) (Profile.PostsResponse.success data) pf).controversyScore
      = (Profile.fetchPosts (some uid) (Profile.PostsResponse.success data) qf).controversyScore := by
  exact ⟨Profile.totalVotes_eq_sum data, rfl⟩

/-- Claim C4: with more than 20 fetched posts, the trending post set is
exactly the first 20 entries of the fetched list sorted descending by
`UpvoteCount` (the sort being a permutation of the input), enriched only
after sorting and truncation; it has exactly 20 entries and is itself in
descending `UpvoteCount` order. -/
theorem c4_trending_top20_sorted
    (data : List Trending.Post) (tf : String → Option Prompt)
    (h : 20 < data.length) :
    (Trending.sortDesc data).Perm data ∧
    List.Pairwise (fun a b => b.UpvoteCount ≤ a.UpvoteCount) (Trending.sortDesc data) ∧
    (Trending.fetchPosts (Trending.PostsResponse.success data) tf).posts
      = Trending.enrichAll tf ((Trending.sortDesc data).take 20) ∧
    (Trending.fetchPosts (Trending.PostsResponse.success data) tf).posts.length = 20 ∧
    List.Pairwise (fun a b => b.UpvoteCount ≤ a.UpvoteCount)
      (Trending.fetchPosts (Trending.PostsResponse.success data) tf).posts := by
  have hperm := Trending.sortDesc_perm data
  have hpair := Trending.sortDesc_pairwise data
  have htake : List.Pairwise (fun a b => b.UpvoteCount ≤ a.UpvoteCount)
      ((Trending.sortDesc data).take 20) :=
    List.Pairwise.sublist (List.take_sublist 20 _) hpair
  refine ⟨hperm, hpair, rfl, ?_, ?_⟩
  · have hlen : (Trending.sortDesc data).length = data.length := hperm.length_eq
    simp only [Trending.fetchPosts, Trending.enrichAll, List.length_map, List.length_take, hlen]
    omega
  · show List.Pairwise _ (Trending.enrichAll tf ((Trending.sortDesc data).take 20))
    rw [Trending.enrichAll, List.pairwise_map]
    exact htake.imp fun hab => by
      simpa [Trending.enrichPost_upvotes] using hab

/-- Witness for C4 at a concrete 21-post list. -/
theorem c4_witness :
    20 < tBig.length ∧
    (Trending.fetchPosts (Trending.PostsResponse.success tBig) sampleFetch).posts.length = 20 ∧
    (Trending.fetchPosts (Trending.PostsResponse.success tBig) sampleFetch).posts
      = Trending.enrichAll sampleFetch ((Trending.sortDesc tBig).take 20) ∧
    List.Pairwise (fun a b => b.UpvoteCount ≤ a.UpvoteCount)
      (Trending.fetchPosts (Trending.PostsResponse.success tBig) sampleFetch).posts := by
  have hlen : 20 < tBig.length := by simp [tBig]
  have h := c4_trending_top20_sorted tBig sampleFetch hlen
  exact ⟨hlen, h.2.2.2.1, h.2.2.1, h.2.2.2.2⟩

/-- Claim C5 as stated is false: the Trending render never filters the
post cards by the selected category.  Concretely, with "sports" selected
and a single fetched post whose enriched `Category` is the empty string
(its prompt fetch failed), that non-sports post is still rendered. -/
theorem c5_counterexample :
    ((Trending.renderView
        (Trending.fetchPosts (Trending.PostsResponse.success [tSample1]) (fun _ => none))
        "sports").cards.all (fun post => post.Category = "sports")) = false := by
  simp [Trending.renderView, Trending.fetchPosts, Trending.sortDesc, Trending.enrichAll,
    Trending.enrichPost, tSample1]

/-- Claim C5 amended: the category selection state toggles as described
(selecting the active category returns to "all", so pressing "sports"
twice from "all" ends at "all"), and the underlying fetched post list is
not modified by selection — but no category filtering is applied to the
rendering: the rendered card list is always the full post list, whatever
category is selected. -/
theorem c5_selection_toggles_but_never_filters
    (posts : List Trending.EnrichedPost) (logged : Bool) (c : String) :
    (Trending.renderView { posts := posts, loading := false, loggedError := logged } c).cards
      = posts ∧
    Trending.handleCategoryPress c c = "all" ∧
    Trending.handleCategoryPress (Trending.handleCategoryPress "all" "sports") "sports"
      = "all" := by
  refine ⟨rfl, ?_, rfl⟩
  simp [Trending.handleCategoryPress]

/-- Claim C6 as stated is false for the profile screen: `navigateToReplies`
performs no numeric validation, so with the non-numeric post id "abc" a
navigation call is still dispatched (carrying `NaN`, modelled `none`). -/
theorem c6_counterexample :
    jsNumber "abc" = none ∧
    Profile.navigateToReplies "abc" "1"
      = some { postId := none, promptId := some 1 } := by
  exact ⟨by decide, by decide⟩

/-- Claim C6 amended: on the trending screen a failed numeric conversion of
either id aborts the navigation (no call dispatched, failure logged, no
exception); on the profile screen there is no validation at all — the
navigation call is always dispatched, with the raw `Number` conversions
(`NaN`, modelled `none`, for non-numeric ids). -/
theorem c6_nan_aborts_only_on_trending
    (postId promptId : String)
    (h : jsNumber postId = none ∨ jsNumber promptId = none) :
    Trending.handlePostPress postId promptId = none ∧
    Profile.navigateToReplies postId promptId
      = some { postId := jsNumber postId, promptId := jsNumber promptId } := by
  constructor
  · rw [Trending.handlePostPress]
    rcases hx : jsNumber postId with _ | p
    · cases jsNumber promptId <;> rfl
    · rcases hy : jsNumber promptId with _ | q
      · rfl
      · rcases h with h | h
        · rw [hx] at h; exact absurd h (by simp)
        · rw [hy] at h; exact absurd h (by simp)
  · rfl

/-- Witness for C6 at the spec's own example input `postId = "abc"`. -/
theorem c6_witness :
    (jsNumber "abc" = none ∨ jsNumber "1" = none) ∧
    Trending.handlePostPress "abc" "1" = none ∧
    Profile.navigateToReplies "abc" "1"
      = some { postId := jsNumber "abc", promptId := jsNumber "1" } := by
  have h := c6_nan_aborts_only_on_trending "abc" "1" (Or.inl (by decide))
  exact ⟨Or.inl (by decide), h.1, h.2⟩

/-- Claim C7: on the profile screen, a stored user identifier resolving to
`null` makes both the user-data fetch and the posts fetch set the error
state and return: no network request is issued (`requestsMade = 0`), no
posts are stored and no enrichment happens (score stays 0), whatever the
would-be server responses are. -/
theorem c7_null_user_short_circuits
    (presp : Profile.PostsResponse) (uresp : Profile.UserResponse)
    (pf : String → Option Prompt) :
    Profile.fetchPosts none presp pf
      = { posts := [], error := some "User ID is not available", isLoading := false,
          controversyScore := 0, requestsMade := 0 } ∧
    Profile.fetchUserData none uresp
      = { username := "", error := some "User ID is not available",
          userLoading := false, requestsMade := 0 } := by
  exact ⟨rfl, rfl⟩

/-- Claim C8 as stated is false for the trending screen: a failed primary
post-list fetch there is only logged (`loggedError`), and the subsequent
render shows no error string at all. -/
theorem c8_counterexample :
    (Trending.fetchPosts Trending.PostsResponse.failure (fun _ => none)).loggedError = true ∧
    (Trending.renderView (Trending.fetchPosts Trending.PostsResponse.failure (fun _ => none))
      "all").errorMessage = none := by
  exact ⟨rfl, rfl⟩

/-- Claim C8 amended: on both screens a transport or decoding failure of
the primary post-list fetch is caught and halts the pipeline (no enrichment
result is stored, loading is cleared); on the profile screen it is surfaced
as the user-visible error string "Failed to load posts", but on the
trending screen it is only logged — no user-visible error string exists. -/
theorem c8_list_fetch_failure_handling
    (uid : String) (pf tf : String → Option Prompt) (c : String) :
    (Profile.fetchPosts (some uid) Profile.PostsResponse.failure pf).posts = [] ∧
    (Profile.fetchPosts (some uid) Profile.PostsResponse.failure pf).isLoading = false ∧
    (Profile.renderPosts (Profile.fetchPosts (some uid) Profile.PostsResponse.failure pf)).errorMessage
      = some "Failed to load posts" ∧
    (Trending.fetchPosts Trending.PostsResponse.failure tf).posts = [] ∧
    (Trending.fetchPosts Trending.PostsResponse.failure tf).loading = false ∧
    (Trending.fetchPosts Trending.PostsResponse.failure tf).loggedError = true ∧
    (Trending.renderView (Trending.fetchPosts Trending.PostsResponse.failure tf) c).errorMessage
      = none := by
  exact ⟨rfl, rfl, rfl, rfl, rfl, rfl, rfl⟩

/-- Claim C9 as stated is false for the trending screen: after a fetch
that completes with an empty post list, no distinct "no posts" state is
rendered there — the generic screen is shown with zero cards and no
message. -/
theorem c9_counterexample :
    ((Trending.renderView
        (Trending.fetchPosts (Trending.PostsResponse.success []) (fun _ => none))
        "all").emptyMessage).isSome = false := by
  simp [Trending.renderView, Trending.fetchPosts, Trending.sortDesc, Trending.enrichAll]

/-- Claim C9 amended: on the profile screen an empty fetched list renders
the distinct "No posts yet" state — which differs from the loading state
(spinner, no message) and from the error state (error text, no empty
message) — while on the trending screen an empty fetched list renders the
generic screen with no cards and no empty-state message at all. -/
theorem c9_empty_state_profile_only
    (uid : String) (pf tf : String → Option Prompt) (c : String) :
    Profile.renderPosts (Profile.fetchPosts (some uid) (Profile.PostsResponse.success []) pf)
      = { showsSpinner := false, errorMessage := none,
          emptyMessage := some "No posts yet", cards := [] } ∧
    Profile.renderPosts Profile.initialPostsState
      = { showsSpinner := true, errorMessage := none, emptyMessage := none, cards := [] } ∧
    (Profile.renderPosts (Profile.fetchPosts (some uid) Profile.PostsResponse.failure pf)).emptyMessage
      = none ∧
    (Trending.renderView (Trending.fetchPosts (Trending.PostsResponse.success []) tf) c).cards
      = [] ∧
    (Trending.renderView (Trending.fetchPosts (Trending.PostsResponse.success []) tf) c).emptyMessage
      = none := by
  refine ⟨rfl, rfl, rfl, ?_, rfl⟩
  simp [Trending.renderView, Trending.fetchPosts, Trending.sortDesc, Trending.enrichAll]

/-- Claim C10: enrichment preserves every input field other than
`PromptText` and `Category` on both screens (identifiers, body text and
both vote counts are unchanged); on the trending screen the post's own
`Category` is overwritten by the fetched prompt's `Category` on success
and replaced by the empty string — losing the original value — when the
prompt fetch fails. -/
theorem c10_enrichment_frame
    (pf tf : String → Option Prompt) (p : Profile.Post) (t : Trending.Post) :
    (Profile.enrichPost pf p).PostID = p.PostID ∧
    (Profile.enrichPost pf p).PromptID = p.PromptID ∧
    (Profile.enrichPost pf p).PostText = p.PostText ∧
    (Profile.enrichPost pf p).UpvoteCount = p.UpvoteCount ∧
    (Profile.enrichPost pf p).DownvoteCount = p.DownvoteCount ∧
    (Trending.enrichPost tf t).PostID = t.PostID ∧
    (Trending.enrichPost tf t).PromptID = t.PromptID ∧
    (Trending.enrichPost tf t).PostText = t.PostText ∧
    (Trending.enrichPost tf t).UpvoteCount = t.UpvoteCount ∧
    (Trending.enrichPost tf t).DownvoteCount = t.DownvoteCount ∧
    (∀ pr, tf t.PromptID = some pr →
        (Trending.enrichPost tf t).Category = pr.Category ∧
        (Trending.enrichPost tf t).PromptText = pr.PromptText) ∧
    (tf t.PromptID = none →
        (Trending.enrichPost tf t).Category = "" ∧
        (Trending.enrichPost tf t).PromptText = "") := by
  cases hp : pf p.PromptID <;> cases ht : tf t.PromptID <;>
    simp [Profile.enrichPost, Trending.enrichPost, hp, ht]

/-- Witness for C10: the successful branch at `tSample1` (its original
`Category` "music" is overwritten by the prompt's "sports") and the
failing branch at `tSample2`. -/
theorem c10_witness :
    sampleFetch tSample1.PromptID = some samplePrompt ∧
    sampleFetch tSample2.PromptID = none ∧
    (Trending.enrichPost sampleFetch tSample1).UpvoteCount = tSample1.UpvoteCount ∧
    (Trending.enrichPost sampleFetch tSample1).Category = samplePrompt.Category ∧
    (Trending.enrichPost sampleFetch tSample2).Category = "" ∧
    (Profile.enrichPost sampleFetch pSample1).PostText = pSample1.PostText := by
  have h1 := c10_enrichment_frame sampleFetch sampleFetch pSample1 tSample1
  have h2 := c10_enrichment_frame sampleFetch sampleFetch pSample1 tSample2
  refine ⟨by decide, by decide, h1.2.2.2.2.2.2.2.2.1, ?_, ?_, h1.2.2.1⟩
  · exact (h1.2.2.2.2.2.2.2.2.2.2.1 samplePrompt (by decide)).1
  · exact (h2.2.2.2.2.2.2.2.2.2.2.2 (by decide)).1
